import Mathlib

/-!
Shallow embedding of the customer-service relay (`app.py`) and proofs of the
behavioural properties of its webhook state machine, delivery fallback chain,
conversation store and history aggregation layer.

Machine-level conventions of the embedding:
* Python strings are `String`; Python truthiness of a string is `s ≠ ""`,
  truthiness of an optional string treats `none` and `some ""` as falsy.
* `datetime` instants are abstract `Nat` ticks (only ordering matters).
* Fallible external calls (Twilio send, TwiML construction, Mongo writes,
  HTTP media fetch, agent invocation) are modelled by explicit outcome
  parameters / `Except` values; a Python function that catches all its
  exceptions becomes a total Lean function.
* Persisted Mongo documents are threaded explicitly as a `List Doc` in
  insertion order.
-/

namespace SobrusCS

/-! ## Python `str.replace` (used as `.replace("**", "*")` and
`.replace("whatsapp:", "")` in `app.py`).

Left-to-right, non-overlapping replacement of every occurrence of a
non-empty pattern.  The `Nat` argument is recursion fuel, always invoked
with the length of the scanned character list (each step consumes at least
one character, so the fuel is never exhausted); the fuel makes the
definition structurally recursive and hence kernel-reducible. -/

def pyReplaceAux (pat rep : List Char) : Nat → List Char → List Char
  | _, [] => []
  | 0, l => l
  | fuel + 1, c :: cs =>
    if pat ≠ [] ∧ pat.isPrefixOf (c :: cs) then
      rep ++ pyReplaceAux pat rep fuel (cs.drop (pat.length - 1))
    else
      c :: pyReplaceAux pat rep fuel cs

def pyReplace (pat rep s : String) : String :=
  ⟨pyReplaceAux pat.data rep.data s.data.length s.data⟩

/-- Markdown-bold to WhatsApp-bold substitution `message.replace("**", "*")`
applied by `send_agent_response` and `respond_twiml_text` (app.py:256,265,270,279). -/
def replaceBold (s : String) : String := pyReplace "**" "*" s

/-- Sender-id normalization `raw.replace("whatsapp:", "")` (app.py:541). -/
def stripWhatsapp (s : String) : String := pyReplace "whatsapp:" "" s

/-- Python `str.startswith`, used for the audio content-type check (app.py:550). -/
def pyStartswith (pre s : String) : Bool := pre.data.isPrefixOf s.data

/-- Python truthiness of an optional string (`None` and `""` are falsy). -/
def optTruthy : Option String → Bool
  | some s => s ≠ ""
  | none => false

/-! ## Configuration (app.py:14-23)

`MONGODB_URI`, `DB_NAME` and `COLLECTION_NAME`; the code only ever tests
their Python truthiness (`MONGODB_URI and DB_NAME and COLLECTION_NAME`),
so each is a `String` with `""` standing for an absent/falsy value. -/

structure Config where
  mongodb_uri : String
  db_name : String
  collection_name : String
deriving DecidableEq

/-- Truthiness test `MONGODB_URI and DB_NAME and COLLECTION_NAME`
(app.py:241,328,386,449). -/
def Config.configured (c : Config) : Bool :=
  c.mongodb_uri ≠ "" && c.db_name ≠ "" && c.collection_name ≠ ""

/-! ## Message documents (app.py:66-83, `save_chat_message`) -/

inductive Sender
  | user
  | agent
deriving DecidableEq

structure Doc where
  user_id : String
  message : String
  sender : Sender
  timestamp : Nat
  session_id : String
  audio_url : Option String := none
  media_type : Option String := none
deriving DecidableEq

/-- Optional media fields are added only when truthy
(`if audio_url: ...`, `if media_type: ...`, app.py:78-81). -/
def normOpt : Option String → Option String
  | some s => if s = "" then none else some s
  | none => none

/-- Session-id defaulting `session_id or f"{user_id}_session"` (app.py:74). -/
def sessionOr (sid : Option String) (uid : String) : String :=
  match sid with
  | some s => if s = "" then uid ++ "_session" else s
  | none => uid ++ "_session"

/-- Document built by `save_chat_message` (app.py:66-83). -/
def saveChatMessage (uid msg : String) (sender : Sender) (ts : Nat)
    (audio_url media_type sid : Option String) : Doc :=
  { user_id := uid, message := msg, sender := sender, timestamp := ts,
    session_id := sessionOr sid uid,
    audio_url := normOpt audio_url, media_type := normOpt media_type }

/-- Best-effort insert `safe_db_insert` (app.py:237-246): no-op when the
store configuration is absent, and a write failure (`writeOk = false`,
standing for the caught exception of `db_insert`) is swallowed.  Totality
of this function is the embedding of "never raises to the request handler". -/
def safeDbInsert (cfg : Config) (writeOk : Bool) (st : List Doc) (d : Doc) : List Doc :=
  if cfg.configured && writeOk then st ++ [d] else st

/-! ## History aggregation (app.py:85-115, `get_chat_history`) -/

/-- Newest-first comparison used by `.sort("timestamp", -1)`. -/
def tsDesc (a b : Doc) : Prop := b.timestamp ≤ a.timestamp

instance : DecidableRel tsDesc := fun a b => Nat.decLe b.timestamp a.timestamp

instance : IsTotal Doc tsDesc := ⟨fun a b => Nat.le_total b.timestamp a.timestamp⟩

instance : IsTrans Doc tsDesc :=
  ⟨fun _ _ _ hab hbc => Nat.le_trans hbc hab⟩

/-- The user's full history ordered newest-first:
`collection.find({"user_id": user_id}).sort("timestamp", -1)` (app.py:94-96). -/
def newestFirst (db : List Doc) (uid : String) : List Doc :=
  List.insertionSort tsDesc (db.filter (fun d => d.user_id = uid))

/-- `get_chat_history` (app.py:85-115): newest-first sort, `.skip(skip)`,
`.limit(limit)`, then an in-place `reverse()` to chronological order.
`readOk = false` stands for the caught Mongo exception, in which case the
function returns `[]` (app.py:111-113). -/
def getChatHistory (db : List Doc) (readOk : Bool) (uid : String)
    (limit skip : Nat) : List Doc :=
  if readOk then (((newestFirst db uid).drop skip).take limit).reverse else []

/-! ## Read endpoints (app.py:290-467)

An endpoint result records the HTTP status and whether the persistence
layer was reached (`touched`).  The history endpoint carries its message
page; the users/summary endpoints are modelled up to their guard and
configuration logic — the verified claims concern only their status codes
and that invalid parameters never reach the store, so their success
payloads are left unmodelled. -/

structure EpResult where
  status : Nat
  touched : Bool
  messages : List Doc := []
deriving DecidableEq

/-- `GET /api/chat/history/{user_id}` (app.py:290-352).  `readOk = false`
stands for a Mongo read failure inside `get_chat_history` (which that
function itself converts to `[]`). -/
def getChatHistoryEndpoint (cfg : Config) (db : List Doc) (readOk : Bool)
    (user_id : String) (limit skip : Int) : EpResult :=
  if user_id = "" then { status := 400, touched := false }
  else if limit < 1 ∨ 100 < limit then { status := 400, touched := false }
  else if skip < 0 then { status := 400, touched := false }
  else if ¬ cfg.configured then { status := 503, touched := false }
  else { status := 200, touched := true,
         messages := getChatHistory db readOk user_id limit.toNat skip.toNat }

/-- `GET /api/chat/users` (app.py:354-417); guard and configuration logic. -/
def getAllUsersEndpoint (cfg : Config) (limit skip : Int)
    (include_summary : Bool) : EpResult :=
  if limit < 1 ∨ 100 < limit then { status := 400, touched := false }
  else if skip < 0 then { status := 400, touched := false }
  else if ¬ cfg.configured then { status := 503, touched := false }
  else { status := 200, touched := true }

/-- `GET /api/chat/users/{user_id}/summary` (app.py:419-467); guard and
configuration logic. -/
def getUserSummaryEndpoint (cfg : Config) (user_id : String) (limit : Int) :
    EpResult :=
  if user_id = "" then { status := 400, touched := false }
  else if limit < 1 ∨ 50 < limit then { status := 400, touched := false }
  else if ¬ cfg.configured then { status := 503, touched := false }
  else { status := 200, touched := true }

/-! ## Agent boundary (app.py:494-508, main.py `get_agent`) -/

/-- An agent reply: an optional `content` attribute plus its stringification.
`getattr(agent_response, 'content', None) or str(agent_response)` is the
extraction rule (app.py:501,584,632); Python `or` also rejects an empty
`content`. -/
structure AgentReply where
  content : Option String := none
  asString : String
deriving DecidableEq

def extractMessage (r : AgentReply) : String :=
  match r.content with
  | some c => if c = "" then r.asString else c
  | none => r.asString

/-- Fixed apology substituted for an `/api/chat` agent failure (app.py:505-508). -/
def chatApology : String :=
  "Désolé, une erreur est survenue en traitant votre demande. Réessayez dans un instant."

/-- Fixed apology for a webhook text-flow agent failure (app.py:647). -/
def textApology : String :=
  "Désolé, une erreur est survenue. Réessayez dans un instant."

/-- Fixed apology for a webhook audio-flow agent failure (app.py:599). -/
def audioApology : String :=
  "Désolé, une erreur est survenue avec le traitement audio. Réessayez plus tard."

/-- Apology returned when the media download fails (app.py:562). -/
def fetchApology : String :=
  "Désolé, je n\x27ai pas pu récupérer l\x27audio. Réessayez plus tard."

/-! ## Chat API (app.py:469-524, `chat_api`) -/

structure ChatBody where
  user_id : Option String := none
  message : Option String := none
deriving DecidableEq

structure ChatResult where
  status : Nat
  detail : Option String := none
  docs : List Doc
  agent_response : Option String := none
deriving DecidableEq

def requiredDetail : String := "user_id and message are required"

/-- `POST /api/chat` (app.py:469-524).  `body = none` stands for an
unparseable JSON body, which the handler converts to the empty dict
(app.py:471-475).  `agent` is the outcome of `get_agent().run(...)`;
`Except.error ()` stands for any exception it raises.  `t1`/`t2` are the
two `datetime.utcnow()` readings.  The returned `docs` are the documents
this request handed to `safe_db_insert`, in order. -/
def chatApi (cfg : Config) (writeOk : Bool) (body : Option ChatBody)
    (agent : Except Unit AgentReply) (t1 t2 : Nat) : ChatResult :=
  let data := body.getD ⟨none, none⟩
  if optTruthy data.user_id && optTruthy data.message then
    let u := data.user_id.getD ""
    let m := data.message.getD ""
    let sid := u ++ "_session"
    let docs0 := safeDbInsert cfg writeOk []
      (saveChatMessage u m Sender.user t1 none none (some sid))
    let am := match agent with
      | Except.ok r => extractMessage r
      | Except.error _ => chatApology
    let docs1 := safeDbInsert cfg writeOk docs0
      (saveChatMessage u am Sender.agent t2 none none (some sid))
    { status := 200, docs := docs1, agent_response := some am }
  else
    { status := 400, detail := some requiredDetail, docs := [] }

/-! ## Media fetcher (app.py:551-562)

`requests.get(media_url, allow_redirects=True)` transparently follows
redirect responses that carry a `Location` header (up to the library's
limit of 30, beyond which it raises `TooManyRedirects`); the handler then
re-checks for a redirect status itself and, when a `Location` header is
present, issues one more (equally redirect-following) `requests.get`,
before `raise_for_status()` rejects any 4xx/5xx final status.  The server
is an abstract map from URL to response; `gets` counts every HTTP request
issued and `manualGets` counts those issued by the handler's own explicit
redirect step. -/

structure HResp where
  status : Nat
  location : Option String
deriving DecidableEq

/-- Redirect statuses tested by the handler (app.py:554) — the same set
`requests` itself follows. -/
def redirectStati : List Nat := [301, 302, 303, 307, 308]

/-- One `requests.get` with `allow_redirects=True`: follows redirects while
the response has a redirect status and a `Location` header; `fuel` is the
library's `max_redirects` budget, exhaustion raises (`Except.error`).
Returns the final response and the number of HTTP requests issued. -/
def followRedirects (server : String → HResp) : Nat → String → Except Unit HResp × Nat
  | 0, url =>
    if (server url).status ∈ redirectStati then
      match (server url).location with
      | some _ => (Except.error (), 1)
      | none => (Except.ok (server url), 1)
    else (Except.ok (server url), 1)
  | fuel + 1, url =>
    if (server url).status ∈ redirectStati then
      match (server url).location with
      | some loc =>
        ((followRedirects server fuel loc).1, (followRedirects server fuel loc).2 + 1)
      | none => (Except.ok (server url), 1)
    else (Except.ok (server url), 1)

/-- `response.raise_for_status()` (app.py:558): raises exactly on 4xx/5xx. -/
def raiseForStatus : Except Unit HResp → Except Unit HResp
  | Except.error e => Except.error e
  | Except.ok r => if 400 ≤ r.status ∧ r.status < 600 then Except.error () else Except.ok r

instance {ε α : Type} [DecidableEq ε] [DecidableEq α] : DecidableEq (Except ε α) := fun x y =>
  match x, y with
  | Except.error a, Except.error b =>
    if h : a = b then isTrue (by rw [h]) else isFalse (fun he => h (Except.error.inj he))
  | Except.ok a, Except.ok b =>
    if h : a = b then isTrue (by rw [h]) else isFalse (fun he => h (Except.ok.inj he))
  | Except.error _, Except.ok _ => isFalse (fun he => Except.noConfusion he)
  | Except.ok _, Except.error _ => isFalse (fun he => Except.noConfusion he)

structure FetchOut where
  result : Except Unit HResp
  gets : Nat
  manualGets : Nat
deriving DecidableEq

/-- The media download block (app.py:551-562): initial redirect-following
GET, the handler's own single-redirect step, then `raise_for_status`.
Any raised exception is the caught `MediaFetchError` (`Except.error`). -/
def mediaFetch (server : String → HResp) (url : String) : FetchOut :=
  let p := followRedirects server 30 url
  match p.1 with
  | Except.error _ => { result := Except.error (), gets := p.2, manualGets := 0 }
  | Except.ok r =>
    if r.status ∈ redirectStati then
      match r.location with
      | some loc =>
        let q := followRedirects server 30 loc
        { result := raiseForStatus q.1, gets := p.2 + q.2, manualGets := q.2 }
      | none => { result := raiseForStatus (Except.ok r), gets := p.2, manualGets := 0 }
    else { result := raiseForStatus (Except.ok r), gets := p.2, manualGets := 0 }

/-! ## Delivery fallback chain (app.py:249-284) -/

inductive RBody
  | twiml (text : String)
  | plain (text : String)
  | empty
deriving DecidableEq

structure HttpResp where
  status : Nat
  body : RBody
  apiSent : Option String := none
deriving DecidableEq

/-- `respond_twiml_text` (app.py:274-284).  `twimlOk = false` stands for
`MessagingResponse` construction raising, in which case the handler
returns the argument text unmodified as a plain-text 200 response
(app.py:281-284).  When construction succeeds the TwiML envelope carries
the bold-substituted text (app.py:279). -/
def respondTwimlText (twimlOk : Bool) (msg : String) : HttpResp :=
  if twimlOk then { status := 200, body := RBody.twiml (replaceBold msg) }
  else { status := 200, body := RBody.plain msg }

/-- `send_agent_response` (app.py:249-271).  Tier 1: configured Twilio
client and sender number, API send succeeds → empty 204, with `apiSent`
recording the text handed to the API.  Tier 2 (API exception, or no
configuration): inline TwiML reply.  A `MessagingResponse` construction
failure inside this function is unguarded and propagates
(`Except.error`), to be caught by the calling webhook block. -/
def sendAgentResponse (twilioCfg twilioSendOk twimlOk : Bool)
    (msg : String) : Except Unit HttpResp :=
  if twilioCfg then
    if twilioSendOk then
      Except.ok { status := 204, body := RBody.empty, apiSent := some (replaceBold msg) }
    else if twimlOk then
      Except.ok { status := 200, body := RBody.twiml (replaceBold msg) }
    else Except.error ()
  else if twimlOk then
    Except.ok { status := 200, body := RBody.twiml (replaceBold msg) }
  else Except.error ()

/-! ## Webhook state machine (app.py:527-663) -/

structure WebhookData where
  From : Option String := none
  Body : Option String := none
  MediaUrl0 : Option String := none
  MediaContentType0 : Option String := none
deriving DecidableEq

/-- Environment of one webhook invocation: store configuration and write
outcome, the abstract media server, the outcomes of the two possible agent
invocations, the Twilio/TwiML outcome flags, and the `datetime.utcnow()`
readings (`ts` for the inbound turn, `ts2` for agent-side turns). -/
structure WebhookEnv where
  cfg : Config
  writeOk : Bool
  server : String → HResp
  textAgent : Except Unit AgentReply
  audioAgent : Except Unit AgentReply
  twilioCfg : Bool
  twilioSendOk : Bool
  twimlOk : Bool
  ts : Nat
  ts2 : Nat

structure WebhookResult where
  resp : HttpResp
  docs : List Doc
  agentCalls : Nat
deriving DecidableEq

/-- Audio flow of the webhook (app.py:550-610).  On a media-fetch failure
the handler returns the apology immediately — before any persistence.
On success it persists the `"[Audio Message]"` placeholder, invokes the
agent, persists the agent turn (the fixed apology on agent failure), and
delivers; a delivery-markup failure is caught by the same `except` as an
agent failure and adds the apology turn. -/
def audioFlow (env : WebhookEnv) (user_id session_id url media_type : String) :
    WebhookResult :=
  match (mediaFetch env.server url).result with
  | Except.error _ =>
    { resp := respondTwimlText env.twimlOk fetchApology, docs := [], agentCalls := 0 }
  | Except.ok _ =>
    let docs0 := safeDbInsert env.cfg env.writeOk []
      (saveChatMessage user_id "[Audio Message]" Sender.user env.ts
        (some url) (some media_type) (some session_id))
    match env.audioAgent with
    | Except.ok r =>
      let am := extractMessage r
      let docs1 := safeDbInsert env.cfg env.writeOk docs0
        (saveChatMessage user_id am Sender.agent env.ts2 none none (some session_id))
      match sendAgentResponse env.twilioCfg env.twilioSendOk env.twimlOk am with
      | Except.ok resp => { resp := resp, docs := docs1, agentCalls := 1 }
      | Except.error _ =>
        let docs2 := safeDbInsert env.cfg env.writeOk docs1
          (saveChatMessage user_id audioApology Sender.agent env.ts2 none none
            (some session_id))
        { resp := respondTwimlText env.twimlOk audioApology, docs := docs2,
          agentCalls := 1 }
    | Except.error _ =>
      let docs1 := safeDbInsert env.cfg env.writeOk docs0
        (saveChatMessage user_id audioApology Sender.agent env.ts2 none none
          (some session_id))
      { resp := respondTwimlText env.twimlOk audioApology, docs := docs1,
        agentCalls := 1 }

/-- Text flow of the webhook (app.py:613-658): persist the inbound text,
invoke the agent, persist the agent turn, deliver; agent or delivery
failure is caught, the fixed apology persisted and returned. -/
def textFlow (env : WebhookEnv) (user_id session_id user_message : String) :
    WebhookResult :=
  let docs0 := safeDbInsert env.cfg env.writeOk []
    (saveChatMessage user_id user_message Sender.user env.ts none none
      (some session_id))
  match env.textAgent with
  | Except.ok r =>
    let am := extractMessage r
    let docs1 := safeDbInsert env.cfg env.writeOk docs0
      (saveChatMessage user_id am Sender.agent env.ts2 none none (some session_id))
    match sendAgentResponse env.twilioCfg env.twilioSendOk env.twimlOk am with
    | Except.ok resp => { resp := resp, docs := docs1, agentCalls := 1 }
    | Except.error _ =>
      let docs2 := safeDbInsert env.cfg env.writeOk docs1
        (saveChatMessage user_id textApology Sender.agent env.ts2 none none
          (some session_id))
      { resp := respondTwimlText env.twimlOk textApology, docs := docs2,
        agentCalls := 1 }
  | Except.error _ =>
    let docs1 := safeDbInsert env.cfg env.writeOk docs0
      (saveChatMessage user_id textApology Sender.agent env.ts2 none none
        (some session_id))
    { resp := respondTwimlText env.twimlOk textApology, docs := docs1,
      agentCalls := 1 }

/-- `POST /webhook` (app.py:527-663).  Field extraction with defaults
(app.py:541-547), audio classification (`MediaUrl0` truthy and content
type starting with `"audio"`, app.py:550), then audio flow, text flow, or
the empty-payload acknowledgement (app.py:623, a plain 200). -/
def whatsappWebhook (env : WebhookEnv) (d : WebhookData) : WebhookResult :=
  let user_id := stripWhatsapp (d.From.getD "")
  let user_message := d.Body.getD ""
  let session_id := user_id ++ "_session"
  let media_type := d.MediaContentType0.getD ""
  if optTruthy d.MediaUrl0 && pyStartswith "audio" media_type then
    audioFlow env user_id session_id (d.MediaUrl0.getD "") media_type
  else if user_message ≠ "" then
    textFlow env user_id session_id user_message
  else
    { resp := { status := 200, body := RBody.plain "Missing user_id or message" },
      docs := [], agentCalls := 0 }

/-! ## Concrete instances used by counterexamples and witnesses -/

/-- A present (truthy) store configuration. -/
def cfgSome : Config := ⟨"mongodb://localhost:27017", "sobrus_customer_service", "chat_messages"⟩

/-- An absent store configuration (empty connection target). -/
def cfgNone : Config := ⟨"", "sobrus_customer_service", "chat_messages"⟩

/-- A server whose root URL starts a two-step redirect chain. -/
def chainServer : String → HResp := fun u =>
  if u = "http://m/a" then ⟨302, some "http://m/b"⟩
  else if u = "http://m/b" then ⟨302, some "http://m/c"⟩
  else ⟨200, none⟩

/-- A server that always fails. -/
def failServer : String → HResp := fun _ => ⟨404, none⟩

/-- Webhook environment with configured store, working writes and TwiML,
no Twilio credentials, an unreachable media server. -/
def envFetchFail : WebhookEnv :=
  { cfg := cfgSome, writeOk := true, server := failServer,
    textAgent := Except.ok ⟨some "Bonjour", "Bonjour"⟩,
    audioAgent := Except.ok ⟨some "Bonjour", "Bonjour"⟩,
    twilioCfg := false, twilioSendOk := false, twimlOk := true,
    ts := 0, ts2 := 1 }

/-- An inbound audio event. -/
def audioData : WebhookData :=
  { From := some "whatsapp:+212600000000", Body := some "",
    MediaUrl0 := some "http://m/a", MediaContentType0 := some "audio/ogg" }

/-- An inbound text event with no `From` field. -/
def noFromData : WebhookData :=
  { From := none, Body := some "Bonjour", MediaUrl0 := none,
    MediaContentType0 := none }

/-- A tiny store content for the history witness. -/
def dbSmall : List Doc :=
  [ { user_id := "u", message := "m1", sender := Sender.user, timestamp := 5,
      session_id := "u_session" },
    { user_id := "u", message := "m2", sender := Sender.agent, timestamp := 3,
      session_id := "u_session" },
    { user_id := "v", message := "m3", sender := Sender.user, timestamp := 4,
      session_id := "v_session" } ]

/-! ## Helper lemmas -/

lemma respondTwimlText_status (ok : Bool) (msg : String) :
    (respondTwimlText ok msg).status = 200 := by
  unfold respondTwimlText
  split <;> rfl

lemma sendAgentResponse_status {a b c : Bool} {msg : String} {r : HttpResp}
    (h : sendAgentResponse a b c msg = Except.ok r) :
    r.status = 200 ∨ r.status = 204 := by
  unfold sendAgentResponse at h
  split_ifs at h <;> first
    | exact Except.noConfusion h
    | (cases Except.ok.inj h; simp)

lemma sendAgentResponse_isOk (a b : Bool) (msg : String) :
    ∃ r, sendAgentResponse a b true msg = Except.ok r := by
  unfold sendAgentResponse
  split_ifs <;> first
    | exact ⟨_, rfl⟩
    | simp_all

lemma raiseForStatus_ok {x : Except Unit HResp} {r : HResp}
    (h : raiseForStatus x = Except.ok r) : ¬(400 ≤ r.status ∧ r.status < 600) := by
  rcases x with e | r'
  · exact Except.noConfusion h
  · by_cases hc : 400 ≤ r'.status ∧ r'.status < 600
    · simp [raiseForStatus, hc] at h
    · simp [raiseForStatus, hc] at h
      exact h ▸ hc

lemma followRedirects_ok_not_redirect (server : String → HResp) :
    ∀ fuel url r, (followRedirects server fuel url).1 = Except.ok r →
      r.status ∈ redirectStati → r.location = none := by
  intro fuel
  induction fuel with
  | zero =>
    intro url r h hs
    unfold followRedirects at h
    split at h
    · split at h
      · simp at h
      · simp at h
        subst h
        assumption
    · simp at h
      subst h
      simp_all
  | succ f ih =>
    intro url r h hs
    unfold followRedirects at h
    split at h
    · split at h
      · simp at h
        exact ih _ r h hs
      · simp at h
        subst h
        assumption
    · simp at h
      subst h
      simp_all

lemma followRedirects_gets_le (server : String → HResp) :
    ∀ fuel url, (followRedirects server fuel url).2 ≤ fuel + 1 := by
  intro fuel
  induction fuel with
  | zero =>
    intro url
    unfold followRedirects
    split
    · split
      · exact Nat.le_refl 1
      · exact Nat.le_refl 1
    · exact Nat.le_refl 1
  | succ f ih =>
    intro url
    unfold followRedirects
    split
    · split
      · exact Nat.add_le_add_right (ih _) 1
      · exact Nat.succ_le_succ (Nat.zero_le _)
    · exact Nat.succ_le_succ (Nat.zero_le _)

lemma audioFlow_status (env : WebhookEnv) (user_id session_id url media_type : String) :
    (audioFlow env user_id session_id url media_type).resp.status = 200 ∨
      (audioFlow env user_id session_id url media_type).resp.status = 204 := by
  simp only [audioFlow]
  repeat' split
  all_goals first
    | exact Or.inl (respondTwimlText_status _ _)
    | exact sendAgentResponse_status (by assumption)

lemma textFlow_status (env : WebhookEnv) (user_id session_id user_message : String) :
    (textFlow env user_id session_id user_message).resp.status = 200 ∨
      (textFlow env user_id session_id user_message).resp.status = 204 := by
  simp only [textFlow]
  repeat' split
  all_goals first
    | exact Or.inl (respondTwimlText_status _ _)
    | exact sendAgentResponse_status (by assumption)

lemma append_session_ne_empty (u : String) : u ++ "_session" ≠ "" := by
  intro h
  have h2 : (u ++ "_session").data = ("" : String).data := congrArg String.data h
  rw [String.data_append] at h2
  simp at h2

/-! ## Claim theorems -/

/-- C1: For every inbound POST /webhook request, regardless of payload
shape, media-fetch failure, agent failure, persistence failure, or
markup-construction failure, the handler returns an HTTP response with a
200-class status code (200 or 204); no exception propagates past the
handler (totality of `whatsappWebhook`) and no 4xx/5xx status is
returned. -/
theorem C1_webhook_always_success (env : WebhookEnv) (d : WebhookData) :
    (whatsappWebhook env d).resp.status = 200 ∨
      (whatsappWebhook env d).resp.status = 204 := by
  simp only [whatsappWebhook]
  split
  · exact audioFlow_status env _ _ _ _
  · split
    · exact textFlow_status env _ _ _
    · exact Or.inl rfl

/-- C3 counterexample: on the tier-3 plain-text fallback of
`respond_twiml_text` (markup construction failed), the returned body is
the original text, not the text with the `"**"` marker pair replaced by
`"*"` — refuting the claim that the substitution is applied identically
on all delivery paths. -/
theorem C3_counterexample :
    (respondTwimlText false "a**b").body ≠ RBody.plain (replaceBold "a**b") := by
  decide

/-- C3 (amended): tier-1 direct API delivery and every tier-2 inline
markup reply carry the input text with `"**"` replaced by `"*"`; the
tier-3 plain-text fallback returns the original input text unmodified. -/
theorem C3_amended_formatting (sOk tok : Bool) (msg : String) :
    sendAgentResponse true true tok msg
      = Except.ok { status := 204, body := RBody.empty,
                    apiSent := some (replaceBold msg) } ∧
    sendAgentResponse false sOk true msg
      = Except.ok { status := 200, body := RBody.twiml (replaceBold msg) } ∧
    sendAgentResponse true false true msg
      = Except.ok { status := 200, body := RBody.twiml (replaceBold msg) } ∧
    respondTwimlText true msg
      = { status := 200, body := RBody.twiml (replaceBold msg) } ∧
    respondTwimlText false msg
      = { status := 200, body := RBody.plain msg } :=
  ⟨rfl, rfl, rfl, rfl, rfl⟩

/-- C8 counterexample: for a server whose media URL answers with a
redirect chain of length two, the fetch block performs three HTTP GETs —
refuting the claim that it performs one GET plus at most one additional
GET (the first `requests.get` call follows redirects by itself). -/
theorem C8_counterexample :
    ¬ ((mediaFetch chainServer "http://m/a").gets ≤ 2) := by
  decide

/-- C8 (amended): the media fetch performs one redirect-following GET
sequence of at most 31 requests; the handler's explicit single-redirect
step never issues a request (the redirect-following GET never returns a
redirect status together with a Location header); any 4xx/5xx status
after that is treated as MediaFetchError. -/
theorem C8_amended_fetch (server : String → HResp) (url : String) :
    (mediaFetch server url).manualGets = 0 ∧
    (mediaFetch server url).gets ≤ 31 ∧
    (∀ r, (mediaFetch server url).result = Except.ok r →
      ¬(400 ≤ r.status ∧ r.status < 600)) := by
  have hnr := followRedirects_ok_not_redirect server 30 url
  have hg := followRedirects_gets_le server 30 url
  refine ⟨?_, ?_, ?_⟩
  · unfold mediaFetch
    rcases hres : (followRedirects server 30 url).1 with e | r
    · simp [hres]
    · by_cases hs : r.status ∈ redirectStati
      · have hloc := hnr r hres hs
        simp [hres, hs, hloc]
      · simp [hres, hs]
  · unfold mediaFetch
    rcases hres : (followRedirects server 30 url).1 with e | r
    · simpa [hres] using hg
    · by_cases hs : r.status ∈ redirectStati
      · have hloc := hnr r hres hs
        simpa [hres, hs, hloc] using hg
      · simpa [hres, hs] using hg
  · intro r' h
    unfold mediaFetch at h
    rcases hres : (followRedirects server 30 url).1 with e | r
    · simp [hres] at h
    · by_cases hs : r.status ∈ redirectStati
      · have hloc := hnr r hres hs
        simp [hres, hs, hloc] at h
        exact raiseForStatus_ok h
      · simp [hres, hs] at h
        exact raiseForStatus_ok h

/-- C8 witness: a concrete server exercising the amended theorem's final
implication at a successful (status 200) fetch. -/
theorem C8_amended_fetch_witness :
    (mediaFetch chainServer "http://m/c").result = Except.ok ⟨200, none⟩ ∧
    ¬(400 ≤ (200 : Nat) ∧ (200 : Nat) < 600) :=
  ⟨rfl, (C8_amended_fetch chainServer "http://m/c").2.2 ⟨200, none⟩ rfl⟩

/-- C10: a POST /api/chat request whose body is not parseable as JSON is
treated as an empty object: the endpoint returns 400 with the
missing-fields message and persists nothing, and (totality) never raises
or returns 500. -/
theorem C10_unparseable_body (cfg : Config) (writeOk : Bool)
    (agent : Except Unit AgentReply) (t1 t2 : Nat) :
    chatApi cfg writeOk none agent t1 t2
      = { status := 400, detail := some requiredDetail, docs := [] } :=
  rfl

/-- C4: for every user and every valid `limit ∈ [1,100]`, `skip ≥ 0`
(with the store read succeeding), `get_chat_history` returns exactly the
chronological (oldest-first) reverse of the `[skip, skip+limit)` slice of
that user's full newest-first history, and consequently the returned page
is non-decreasing in timestamp. -/
theorem C4_history_window_and_order (db : List Doc) (uid : String) (L S : Nat)
    (h1 : 1 ≤ L) (h2 : L ≤ 100) :
    getChatHistory db true uid L S
      = (((newestFirst db uid).drop S).take L).reverse ∧
    List.Sorted (fun a b : Doc => a.timestamp ≤ b.timestamp)
      (getChatHistory db true uid L S) := by
  constructor
  · rfl
  · have hs : List.Sorted tsDesc (newestFirst db uid) :=
      List.sorted_insertionSort tsDesc _
    have hsub : List.Sublist (((newestFirst db uid).drop S).take L)
        (newestFirst db uid) :=
      (List.take_sublist _ _).trans (List.drop_sublist _ _)
    have hs2 : List.Sorted tsDesc (((newestFirst db uid).drop S).take L) :=
      hs.sublist hsub
    show List.Sorted _ ((((newestFirst db uid).drop S).take L).reverse)
    exact List.pairwise_reverse.mpr hs2

/-- C4 witness at a concrete three-message store. -/
theorem C4_history_window_and_order_witness :
    getChatHistory dbSmall true "u" 2 0
      = (((newestFirst dbSmall "u").drop 0).take 2).reverse ∧
    List.Sorted (fun a b : Doc => a.timestamp ≤ b.timestamp)
      (getChatHistory dbSmall true "u" 2 0) :=
  C4_history_window_and_order dbSmall "u" 2 0 (by decide) (by decide)

/-- C5: a request to the history or users endpoint with `limit` outside
`[1,100]` or `skip < 0`, and a request to the summary endpoint with
`limit` outside `[1,50]`, returns HTTP 400 without reaching the
persistence layer. -/
theorem C5_param_validation (cfg : Config) (db : List Doc) (readOk : Bool)
    (uid : String) (inc : Bool) (limit skip lim2 : Int)
    (h1 : limit < 1 ∨ 100 < limit ∨ skip < 0)
    (h2 : lim2 < 1 ∨ 50 < lim2) :
    ((getChatHistoryEndpoint cfg db readOk uid limit skip).status = 400 ∧
     (getChatHistoryEndpoint cfg db readOk uid limit skip).touched = false) ∧
    ((getAllUsersEndpoint cfg limit skip inc).status = 400 ∧
     (getAllUsersEndpoint cfg limit skip inc).touched = false) ∧
    ((getUserSummaryEndpoint cfg uid lim2).status = 400 ∧
     (getUserSummaryEndpoint cfg uid lim2).touched = false) := by
  unfold getChatHistoryEndpoint getAllUsersEndpoint getUserSummaryEndpoint
  split_ifs <;> simp_all

/-- C5 witness at `limit = 0`, `skip = 0`, summary `limit = 0`. -/
theorem C5_param_validation_witness :
    ((getChatHistoryEndpoint cfgSome dbSmall true "u" 0 0).status = 400 ∧
     (getChatHistoryEndpoint cfgSome dbSmall true "u" 0 0).touched = false) ∧
    ((getAllUsersEndpoint cfgSome 0 0 false).status = 400 ∧
     (getAllUsersEndpoint cfgSome 0 0 false).touched = false) ∧
    ((getUserSummaryEndpoint cfgSome "u" 0).status = 400 ∧
     (getUserSummaryEndpoint cfgSome "u" 0).touched = false) :=
  C5_param_validation cfgSome dbSmall true "u" false 0 0 0
    (Or.inl (by decide)) (Or.inl (by decide))

/-- C6: when the store configuration is absent, every read endpoint with
valid parameters returns HTTP 503, and every append through
`safe_db_insert` is a silent no-op (totality: it returns without
raising); when the write itself fails the error is swallowed for any
configuration. -/
theorem C6_unconfigured_degrades (cfg : Config) (hc : cfg.configured = false)
    (db : List Doc) (readOk : Bool) (uid : String) (inc : Bool)
    (l1 s1 l2 s2 l3 : Int)
    (hv1 : 1 ≤ l1 ∧ l1 ≤ 100 ∧ 0 ≤ s1)
    (hv2 : 1 ≤ l2 ∧ l2 ≤ 100 ∧ 0 ≤ s2)
    (hv3 : 1 ≤ l3 ∧ l3 ≤ 50) (hu : uid ≠ "") :
    (getChatHistoryEndpoint cfg db readOk uid l1 s1).status = 503 ∧
    (getAllUsersEndpoint cfg l2 s2 inc).status = 503 ∧
    (getUserSummaryEndpoint cfg uid l3).status = 503 ∧
    (∀ (writeOk : Bool) (st : List Doc) (doc : Doc),
      safeDbInsert cfg writeOk st doc = st) ∧
    (∀ (cfg2 : Config) (st : List Doc) (doc : Doc),
      safeDbInsert cfg2 false st doc = st) := by
  refine ⟨?_, ?_, ?_, ?_, ?_⟩
  · unfold getChatHistoryEndpoint
    split_ifs <;> first | rfl | (exfalso; omega) | simp_all
  · unfold getAllUsersEndpoint
    split_ifs <;> first | rfl | (exfalso; omega) | simp_all
  · unfold getUserSummaryEndpoint
    split_ifs <;> first | rfl | (exfalso; omega) | simp_all
  · intro w st doc
    simp [safeDbInsert, hc]
  · intro c2 st doc
    simp [safeDbInsert]

/-- C6 witness at an empty connection target and default parameters. -/
theorem C6_unconfigured_degrades_witness :
    (getChatHistoryEndpoint cfgNone dbSmall true "u" 50 0).status = 503 ∧
    (getAllUsersEndpoint cfgNone 20 0 false).status = 503 ∧
    (getUserSummaryEndpoint cfgNone "u" 10).status = 503 ∧
    (∀ (writeOk : Bool) (st : List Doc) (doc : Doc),
      safeDbInsert cfgNone writeOk st doc = st) ∧
    (∀ (cfg2 : Config) (st : List Doc) (doc : Doc),
      safeDbInsert cfg2 false st doc = st) :=
  C6_unconfigured_degrades cfgNone (by decide) dbSmall true "u" false 50 0 20 0 10
    (by decide) (by decide) (by decide) (by decide)

/-- C7: for every POST /api/chat request with non-empty `user_id` and
`message`, configured store and succeeding writes, exactly two documents
are persisted for the turn — sender `user` then sender `agent`, both with
`session_id = "{user_id}_session"` — and when the agent invocation raises,
the fixed localized apology is persisted as the agent document while the
turn still completes with HTTP 200. -/
theorem C7_chat_turn_two_docs (cfg : Config) (hc : cfg.configured = true)
    (u m : String) (hu : u ≠ "") (hm : m ≠ "")
    (agent : Except Unit AgentReply) (t1 t2 : Nat) :
    (chatApi cfg true (some ⟨some u, some m⟩) agent t1 t2).status = 200 ∧
    (chatApi cfg true (some ⟨some u, some m⟩) agent t1 t2).docs.map Doc.sender
      = [Sender.user, Sender.agent] ∧
    (chatApi cfg true (some ⟨some u, some m⟩) agent t1 t2).docs.map Doc.session_id
      = [u ++ "_session", u ++ "_session"] ∧
    (chatApi cfg true (some ⟨some u, some m⟩) agent t1 t2).docs.map Doc.user_id
      = [u, u] ∧
    (agent = Except.error () →
      (chatApi cfg true (some ⟨some u, some m⟩) agent t1 t2).docs.map Doc.message
        = [m, chatApology]) := by
  have hsess : sessionOr (some (u ++ "_session")) u = u ++ "_session" := by
    simp [sessionOr, append_session_ne_empty u]
  rcases agent with e | rep
  · refine ⟨?_, ?_, ?_, ?_, fun _ => ?_⟩ <;>
      simp [chatApi, optTruthy, hu, hm, safeDbInsert, hc, saveChatMessage, hsess]
  · refine ⟨?_, ?_, ?_, ?_, fun hcontra => Except.noConfusion hcontra⟩ <;>
      simp [chatApi, optTruthy, hu, hm, safeDbInsert, hc, saveChatMessage, hsess]

/-- C7 witness: a concrete turn whose agent invocation raises. -/
theorem C7_chat_turn_two_docs_witness :
    (chatApi cfgSome true (some ⟨some "u1", some "hello"⟩)
        (Except.error ()) 0 1).status = 200 ∧
    (chatApi cfgSome true (some ⟨some "u1", some "hello"⟩)
        (Except.error ()) 0 1).docs.map Doc.sender = [Sender.user, Sender.agent] ∧
    (chatApi cfgSome true (some ⟨some "u1", some "hello"⟩)
        (Except.error ()) 0 1).docs.map Doc.session_id
      = ["u1" ++ "_session", "u1" ++ "_session"] ∧
    (chatApi cfgSome true (some ⟨some "u1", some "hello"⟩)
        (Except.error ()) 0 1).docs.map Doc.user_id = ["u1", "u1"] ∧
    (Except.error () = (Except.error () : Except Unit AgentReply) →
      (chatApi cfgSome true (some ⟨some "u1", some "hello"⟩)
          (Except.error ()) 0 1).docs.map Doc.message = ["hello", chatApology]) :=
  C7_chat_turn_two_docs cfgSome (by decide) "u1" "hello" (by decide) (by decide)
    (Except.error ()) 0 1

/-- C9: a webhook request whose `From` field is absent or empty but whose
`Body` is non-empty (and which carries no audio media) is not rejected:
with configured store, succeeding writes and working markup, both turns
are persisted with `user_id = ""` and `session_id = "_session"`, through
the normal text flow, and the response is 200-class. -/
theorem C9_empty_sender_accepted (env : WebhookEnv) (d : WebhookData)
    (hf : d.From = none ∨ d.From = some "")
    (hb : d.Body.getD "" ≠ "")
    (hm : (optTruthy d.MediaUrl0
            && pyStartswith "audio" (d.MediaContentType0.getD "")) = false)
    (hc : env.cfg.configured = true) (hw : env.writeOk = true)
    (ht : env.twimlOk = true) :
    (whatsappWebhook env d).docs.map Doc.user_id = ["", ""] ∧
    (whatsappWebhook env d).docs.map Doc.session_id = ["_session", "_session"] ∧
    (whatsappWebhook env d).docs.map Doc.sender = [Sender.user, Sender.agent] ∧
    (whatsappWebhook env d).agentCalls = 1 ∧
    ((whatsappWebhook env d).resp.status = 200 ∨
      (whatsappWebhook env d).resp.status = 204) := by
  have hfrom : d.From.getD "" = "" := by rcases hf with h | h <;> simp [h]
  have hstrip : stripWhatsapp "" = "" := rfl
  have hsess0 : ("" : String) ++ "_session" = "_session" := by decide
  have hsess : sessionOr (some "_session") "" = "_session" := by decide
  have hw1 : whatsappWebhook env d = textFlow env "" "_session" (d.Body.getD "") := by
    simp [whatsappWebhook, hm, hfrom, hstrip, hb, hsess0]
  rw [hw1]
  rcases ha : env.textAgent with e | rep
  · refine ⟨?_, ?_, ?_, ?_, ?_⟩ <;>
      simp [textFlow, ha, safeDbInsert, hc, hw, saveChatMessage, hsess,
        respondTwimlText_status]
  · obtain ⟨r0, hsend⟩ :=
      sendAgentResponse_isOk env.twilioCfg env.twilioSendOk (extractMessage rep)
    refine ⟨?_, ?_, ?_, ?_, ?_⟩ <;>
      simp [textFlow, ha, ht, hsend, safeDbInsert, hc, hw, saveChatMessage, hsess]
    exact sendAgentResponse_status hsend

/-- C9 witness: a concrete no-`From` text event in a working environment. -/
theorem C9_empty_sender_accepted_witness :
    (whatsappWebhook envFetchFail noFromData).docs.map Doc.user_id = ["", ""] ∧
    (whatsappWebhook envFetchFail noFromData).docs.map Doc.session_id
      = ["_session", "_session"] ∧
    (whatsappWebhook envFetchFail noFromData).docs.map Doc.sender
      = [Sender.user, Sender.agent] ∧
    (whatsappWebhook envFetchFail noFromData).agentCalls = 1 ∧
    ((whatsappWebhook envFetchFail noFromData).resp.status = 200 ∨
      (whatsappWebhook envFetchFail noFromData).resp.status = 204) :=
  C9_empty_sender_accepted envFetchFail noFromData (Or.inl rfl) (by decide)
    (by decide) (by decide) (by decide) (by decide)

/-- C2 counterexample: a concrete audio webhook event whose media fetch
fails returns the localized apology but persists nothing at all — in
particular no `"[Audio Message]"` placeholder document — refuting the
claim that the inbound placeholder user message is still persisted. -/
theorem C2_counterexample :
    (whatsappWebhook envFetchFail audioData).resp.body
        = RBody.twiml (replaceBold fetchApology) ∧
    (whatsappWebhook envFetchFail audioData).docs = [] ∧
    ¬ ∃ doc ∈ (whatsappWebhook envFetchFail audioData).docs,
        doc.message = "[Audio Message]" := by
  decide

/-- C2 (amended): for every webhook audio event whose media fetch fails,
the handler skips agent invocation entirely, returns the localized
apology reply, and persists zero documents for the event — neither the
`"[Audio Message]"` placeholder nor any agent turn. -/
theorem C2_amended_fetch_failure (env : WebhookEnv) (d : WebhookData)
    (hm : optTruthy d.MediaUrl0 = true)
    (ht : pyStartswith "audio" (d.MediaContentType0.getD "") = true)
    (hf : (mediaFetch env.server (d.MediaUrl0.getD "")).result
            = Except.error ()) :
    (whatsappWebhook env d).docs = [] ∧
    (whatsappWebhook env d).agentCalls = 0 ∧
    (whatsappWebhook env d).resp = respondTwimlText env.twimlOk fetchApology := by
  have hw1 : whatsappWebhook env d
      = audioFlow env (stripWhatsapp (d.From.getD ""))
          (stripWhatsapp (d.From.getD "") ++ "_session")
          (d.MediaUrl0.getD "") (d.MediaContentType0.getD "") := by
    simp [whatsappWebhook, hm, ht]
  rw [hw1]
  simp [audioFlow, hf]

/-- C2 amended witness at the concrete failing-server event. -/
theorem C2_amended_fetch_failure_witness :
    (whatsappWebhook envFetchFail audioData).docs = [] ∧
    (whatsappWebhook envFetchFail audioData).agentCalls = 0 ∧
    (whatsappWebhook envFetchFail audioData).resp
      = respondTwimlText envFetchFail.twimlOk fetchApology :=
  C2_amended_fetch_failure envFetchFail audioData (by decide) (by decide)
    (by decide)


end SobrusCS
